import Mathlib

/-!
Verification development for the simple-authenticated-webapp repository.

The repository is a browser client: an identity module (auth.js) keeps an
in-memory session with an ID token, and a data-service module
(dataService.js) performs bearer-authenticated HTTP operations against a
primary-data endpoint and a user-delta endpoint, maintaining an in-memory
cache.  This file embeds those modules shallowly: the mutable module state
becomes explicit state records threaded through the functions, the network
becomes an explicit outcome parameter, and the clock becomes an explicit
argument.  Each definition is translated from the corresponding JavaScript
function.
-/

/-- JSON values as produced by the JavaScript JSON.parse builtin.  Numbers
are kept as exact decimals, a mantissa together with a power-of-ten
exponent, so that integer claims can be stated without floating point;
object members are kept in source order, as JavaScript objects preserve
insertion order. -/
inductive Json where
  | null : Json
  | bool (b : Bool) : Json
  | num (mantissa : Int) (exp10 : Int) : Json
  | str (s : String) : Json
  | arr (elements : List Json) : Json
  | obj (members : List (String × Json)) : Json

/-- Split a character list at every dot, the semantics of the JavaScript
expression s.split('.') for the one-character separator '.'.  The
accumulator holds the current segment reversed. -/
def splitOnDotAux : List Char → List Char → List (List Char)
  | [], acc => [acc.reverse]
  | c :: cs, acc =>
    if c = '.' then acc.reverse :: splitOnDotAux cs [] else splitOnDotAux cs (c :: acc)

/-- s.split('.') on strings. -/
def splitOnDot (s : String) : List String :=
  (splitOnDotAux s.data []).map String.mk

/-- ASCII lower-casing of a string, the behaviour of the JavaScript
toLowerCase method on the ASCII role names compared in the source. -/
def lowerStr (s : String) : String :=
  String.mk (s.data.map Char.toLower)

/-- ASCII whitespace skipped by the forgiving-base64 decode behind the
browser atob builtin: tab, line feed, form feed, carriage return, space. -/
def isB64Ws (c : Char) : Bool :=
  c = ' ' ∨ c = '\t' ∨ c = '\n' ∨ c = '\x0c' ∨ c = '\r'

/-- Value of one base64-alphabet character, none for a character outside
the alphabet. -/
def b64Val (c : Char) : Option Nat :=
  let n := c.toNat
  if 65 ≤ n ∧ n ≤ 90 then some (n - 65)
  else if 97 ≤ n ∧ n ≤ 122 then some (n - 97 + 26)
  else if 48 ≤ n ∧ n ≤ 57 then some (n - 48 + 52)
  else if c = '+' then some 62
  else if c = '/' then some 63
  else none

/-- Remove one or two trailing padding characters. -/
def stripB64Pad (cs : List Char) : List Char :=
  match cs.reverse with
  | '=' :: '=' :: rest => rest.reverse
  | '=' :: rest => rest.reverse
  | _ => cs

/-- Reassemble decoded 6-bit groups into bytes: a full quantum of four
characters yields three bytes; a final quantum of two or three characters
yields one or two bytes, the leftover low bits being discarded, as in the
forgiving-base64 algorithm. -/
def b64Bytes : List Nat → List Nat
  | a :: b :: c :: d :: rest =>
    let n := ((a * 64 + b) * 64 + c) * 64 + d
    n / 65536 :: n / 256 % 256 :: n % 256 :: b64Bytes rest
  | [a, b] => [(a * 64 + b) / 16]
  | [a, b, c] => [((a * 64 + b) * 64 + c) / 1024, ((a * 64 + b) * 64 + c) / 4 % 256]
  | [_] => []
  | [] => []

/-- The browser atob builtin (forgiving-base64 decode): strip ASCII
whitespace, strip up to two trailing padding characters when the length is
a multiple of four, fail when the remaining length is 1 modulo 4 or when a
character is outside the base64 alphabet, and otherwise emit the decoded
bytes.  The JavaScript builtin throws on failure; the model returns none. -/
def atob (s : String) : Option (List Nat) := do
  let data := s.data.filter (fun c => ¬ isB64Ws c)
  let data := if data.length % 4 = 0 then stripB64Pad data else data
  if data.length % 4 = 1 then none
  else do
    let vals ← data.mapM b64Val
    some (b64Bytes vals)

/-- Is a byte a UTF-8 continuation byte. -/
def isUtf8Cont (b : Nat) : Bool := 128 ≤ b ∧ b ≤ 191

/-- Strict UTF-8 decoding of a byte list, the behaviour of the
decodeURIComponent builtin applied to the percent-encoded bytes in the
source's token-claim decoding: rejects overlong encodings, surrogate code
points and truncated sequences. -/
def utf8DecodeAux : List Nat → Option (List Char)
  | [] => some []
  | b :: rest =>
    if b < 128 then do
      let cs ← utf8DecodeAux rest
      some (Char.ofNat b :: cs)
    else if b < 194 then none
    else if b ≤ 223 then
      match rest with
      | b2 :: rest2 =>
        if isUtf8Cont b2 then do
          let cs ← utf8DecodeAux rest2
          some (Char.ofNat ((b - 192) * 64 + (b2 - 128)) :: cs)
        else none
      | _ => none
    else if b ≤ 239 then
      match rest with
      | b2 :: b3 :: rest3 =>
        let lowOk :=
          if b = 224 then 160 ≤ b2 ∧ b2 ≤ 191
          else if b = 237 then 128 ≤ b2 ∧ b2 ≤ 159
          else isUtf8Cont b2
        if lowOk ∧ isUtf8Cont b3 then do
          let cs ← utf8DecodeAux rest3
          some (Char.ofNat (((b - 224) * 64 + (b2 - 128)) * 64 + (b3 - 128)) :: cs)
        else none
      | _ => none
    else if b ≤ 244 then
      match rest with
      | b2 :: b3 :: b4 :: rest4 =>
        let lowOk :=
          if b = 240 then 144 ≤ b2 ∧ b2 ≤ 191
          else if b = 244 then 128 ≤ b2 ∧ b2 ≤ 143
          else isUtf8Cont b2
        if lowOk ∧ isUtf8Cont b3 ∧ isUtf8Cont b4 then do
          let cs ← utf8DecodeAux rest4
          some (Char.ofNat ((((b - 240) * 64 + (b2 - 128)) * 64 + (b3 - 128)) * 64 + (b4 - 128)) :: cs)
        else none
      | _ => none
    else none

/-- UTF-8 decode a byte list into a string. -/
def utf8Decode (bs : List Nat) : Option String :=
  (utf8DecodeAux bs).map String.mk

/-- JSON whitespace. -/
def isJsonWs (c : Char) : Bool :=
  c = ' ' ∨ c = '\t' ∨ c = '\n' ∨ c = '\r'

/-- Skip JSON whitespace. -/
def skipJsonWs (cs : List Char) : List Char :=
  cs.dropWhile isJsonWs

/-- ASCII decimal digit. -/
def isDigitCh (c : Char) : Bool :=
  48 ≤ c.toNat ∧ c.toNat ≤ 57

/-- Numeric value of a decimal digit list. -/
def digitsToNat (ds : List Char) : Nat :=
  ds.foldl (fun n c => n * 10 + (c.toNat - 48)) 0

/-- Value of a hexadecimal digit, none otherwise. -/
def hexVal (c : Char) : Option Nat :=
  let n := c.toNat
  if 48 ≤ n ∧ n ≤ 57 then some (n - 48)
  else if 65 ≤ n ∧ n ≤ 70 then some (n - 55)
  else if 97 ≤ n ∧ n ≤ 102 then some (n - 87)
  else none

/-- Value of a four-hex-digit escape. -/
def hex4 (a b c d : Char) : Option Nat := do
  let x ← hexVal a
  let y ← hexVal b
  let z ← hexVal c
  let w ← hexVal d
  some (((x * 16 + y) * 16 + z) * 16 + w)

/-- The character denoted by a single-character JSON string escape. -/
def escChar (c : Char) : Option Char :=
  if c = '"' then some '"'
  else if c = '\\' then some '\\'
  else if c = '/' then some '/'
  else if c = 'b' then some '\x08'
  else if c = 'f' then some '\x0c'
  else if c = 'n' then some '\n'
  else if c = 'r' then some '\r'
  else if c = 't' then some '\t'
  else none

/-- Parse the body of a JSON string after the opening quote, returning the
decoded characters and the input after the closing quote.  Escape sequences
follow the JSON grammar; a surrogate escape pair is combined into one code
point.  A lone surrogate escape is rejected here (the JavaScript builtin
would produce an unpaired surrogate code unit, which this model's strings
cannot represent; no input in this development contains one). -/
def parseStringAux : Nat → List Char → Option (List Char × List Char)
  | 0, _ => none
  | _ + 1, [] => none
  | fuel + 1, c :: rest =>
    if c = '"' then some ([], rest)
    else if c = '\\' then
      match rest with
      | 'u' :: h1 :: h2 :: h3 :: h4 :: rest2 => do
        let u ← hex4 h1 h2 h3 h4
        if 55296 ≤ u ∧ u ≤ 56319 then
          match rest2 with
          | '\\' :: 'u' :: g1 :: g2 :: g3 :: g4 :: rest3 => do
            let v ← hex4 g1 g2 g3 g4
            if 56320 ≤ v ∧ v ≤ 57343 then do
              let (s, r) ← parseStringAux fuel rest3
              some (Char.ofNat (65536 + (u - 55296) * 1024 + (v - 56320)) :: s, r)
            else none
          | _ => none
        else if 56320 ≤ u ∧ u ≤ 57343 then none
        else do
          let (s, r) ← parseStringAux fuel rest2
          some (Char.ofNat u :: s, r)
      | e :: rest2 => do
        let ec ← escChar e
        let (s, r) ← parseStringAux fuel rest2
        some (ec :: s, r)
      | [] => none
    else if c.toNat < 32 then none
    else do
      let (s, r) ← parseStringAux fuel rest
      some (c :: s, r)

/-- Optional fraction part of a JSON number: digits after a decimal point. -/
def parseFrac : List Char → Option (List Char × List Char)
  | '.' :: r =>
    let p := r.span isDigitCh
    if p.1.isEmpty then none else some p
  | cs => some ([], cs)

/-- Optional exponent part of a JSON number, as a signed power of ten. -/
def parseExp : List Char → Option (Int × List Char)
  | c :: r =>
    if c = 'e' ∨ c = 'E' then
      let signed : Bool × List Char :=
        match r with
        | '+' :: rr => (false, rr)
        | '-' :: rr => (true, rr)
        | _ => (false, r)
      let p := signed.2.span isDigitCh
      if p.1.isEmpty then none
      else some ((if signed.1 then -(digitsToNat p.1 : Int) else (digitsToNat p.1 : Int)), p.2)
    else some (0, c :: r)
  | [] => some (0, [])

/-- Parse a JSON number per the JSON grammar: optional minus, an integer
part with no leading zero, optional fraction and exponent.  The value is
kept exactly as mantissa times ten to the exponent. -/
def parseNum (cs : List Char) : Option (Json × List Char) :=
  let signed : Bool × List Char :=
    match cs with
    | '-' :: r => (true, r)
    | _ => (false, cs)
  match signed.2 with
  | [] => none
  | c :: rest =>
    let intPart : Option (List Char × List Char) :=
      if c = '0' then some ([c], rest)
      else if isDigitCh c then
        let p := rest.span isDigitCh
        some (c :: p.1, p.2)
      else none
    match intPart with
    | none => none
    | some (intDigits, r1) => do
      let (fracDigits, r2) ← parseFrac r1
      let (e, r3) ← parseExp r2
      let mant : Int := (digitsToNat (intDigits ++ fracDigits) : Int)
      some (.num (if signed.1 then -mant else mant) (e - fracDigits.length), r3)

/-- Collapse duplicate object keys the way JavaScript property assignment
does during JSON.parse: a key keeps its first position and its last value. -/
def dedupMembersAux : Nat → List (String × Json) → List (String × Json)
  | 0, _ => []
  | _ + 1, [] => []
  | fuel + 1, (k, v) :: rest =>
    let v2 := rest.foldl (fun acc p => if p.1 == k then p.2 else acc) v
    (k, v2) :: dedupMembersAux fuel (rest.filter (fun p => !(p.1 == k)))

/-- Collapse duplicate object keys. -/
def dedupMembers (ms : List (String × Json)) : List (String × Json) :=
  dedupMembersAux ms.length ms

mutual

/-- Parse one JSON value, fuel-bounded.  Two units of fuel per input
character always suffice, since every nested call consumes input. -/
def parseVal : Nat → List Char → Option (Json × List Char)
  | 0, _ => none
  | fuel + 1, cs =>
    match skipJsonWs cs with
    | 'n' :: 'u' :: 'l' :: 'l' :: rest => some (.null, rest)
    | 't' :: 'r' :: 'u' :: 'e' :: rest => some (.bool true, rest)
    | 'f' :: 'a' :: 'l' :: 's' :: 'e' :: rest => some (.bool false, rest)
    | '"' :: rest => do
      let (s, r) ← parseStringAux (rest.length + 1) rest
      some (.str (String.mk s), r)
    | '[' :: rest =>
      (match skipJsonWs rest with
      | ']' :: r2 => some (.arr [], r2)
      | cs2 => do
        let (xs, r2) ← parseElems fuel cs2
        some (.arr xs, r2))
    | '{' :: rest =>
      (match skipJsonWs rest with
      | '}' :: r2 => some (.obj [], r2)
      | cs2 => do
        let (ms, r2) ← parseMembers fuel cs2
        some (.obj (dedupMembers ms), r2))
    | cs2 => parseNum cs2

/-- Parse the comma-separated elements of a non-empty JSON array up to and
including the closing bracket. -/
def parseElems : Nat → List Char → Option (List Json × List Char)
  | 0, _ => none
  | fuel + 1, cs => do
    let (v, r) ← parseVal fuel cs
    match skipJsonWs r with
    | ',' :: r2 => do
      let (xs, r3) ← parseElems fuel r2
      some (v :: xs, r3)
    | ']' :: r2 => some ([v], r2)
    | _ => none

/-- Parse the comma-separated members of a non-empty JSON object up to and
including the closing brace. -/
def parseMembers : Nat → List Char → Option (List (String × Json) × List Char)
  | 0, _ => none
  | fuel + 1, cs =>
    match skipJsonWs cs with
    | '"' :: rest => do
      let (k, r) ← parseStringAux (rest.length + 1) rest
      match skipJsonWs r with
      | ':' :: r2 => do
        let (v, r3) ← parseVal fuel r2
        match skipJsonWs r3 with
        | ',' :: r4 => do
          let (ms, r5) ← parseMembers fuel r4
          some ((String.mk k, v) :: ms, r5)
        | '}' :: r4 => some ([(String.mk k, v)], r4)
        | _ => none
      | _ => none
    | _ => none

end

/-- The JavaScript JSON.parse builtin on a character list: parse one value
and require only whitespace after it; none models a thrown SyntaxError. -/
def jsonParseChars (cs : List Char) : Option Json :=
  match parseVal (2 * cs.length + 8) cs with
  | some (v, rest) => if (skipJsonWs rest).isEmpty then some v else none
  | none => none

/-- JSON.parse on a string. -/
def jsonParse (s : String) : Option Json :=
  jsonParseChars s.data

/-! ## Identity session (auth.js) -/

/-- The in-memory session object userSessionData of auth.js. -/
structure UserSessionData where
  userDetails : Option Json
  idToken : Option String
  accessToken : Option String

/-- The session with every field null. -/
def emptySession : UserSessionData := ⟨none, none, none⟩

/-- The auth.js module state: whether the msalInstance has been created,
and the session object. -/
structure AuthModule where
  msalReady : Bool
  session : UserSessionData

/-- getIdToken of auth.js: returns userSessionData.idToken. -/
def getIdToken (a : AuthModule) : Option String :=
  a.session.idToken

/-- signOut of auth.js: when no msalInstance exists it logs and returns;
otherwise it nulls the three session fields (the provider-side logout call
is an external effect with no bearing on the local state). -/
def signOut (a : AuthModule) : AuthModule :=
  if a.msalReady then { a with session := emptySession } else a

/-- The replace calls of getIdTokenClaims: dash to plus, underscore to
slash, turning base64url into base64. -/
def base64urlToBase64 (s : String) : String :=
  String.mk (s.data.map fun c => if c = '-' then '+' else if c = '_' then '/' else c)

/-- getIdTokenClaims of auth.js, as a function of the held idToken value:
null (falsy, which includes the empty string) yields null; a token without
exactly three dot-separated segments yields null; otherwise the middle
segment is converted from base64url to base64, decoded with atob, UTF-8
decoded via the percent-encoding trick, and parsed as JSON.  Every failure
along the way is caught and yields null. -/
def getIdTokenClaims (idToken : Option String) : Option Json :=
  match idToken with
  | none => none
  | some t =>
    if t == "" then none
    else
      let tokenParts := splitOnDot t
      if tokenParts.length ≠ 3 then none
      else
        match tokenParts[1]? with
        | none => none
        | some payload =>
          match atob (base64urlToBase64 payload) with
          | none => none
          | some bytes =>
            match utf8Decode bytes with
            | none => none
            | some jsonPayload => jsonParse jsonPayload

/-- The shape of decoded token claims consumed by updateAdminAccess of
app.js: the roles field is present as an array of strings, or absent
(covering both a missing roles claim and a non-array one, which the
source's Array.isArray guard treats alike). -/
structure TokenClaims where
  roles : Option (List String)

/-- The role check computed inside updateAdminAccess: some role in the
roles array equals admin or superadmin after lower-casing. -/
def rolesGrantAdmin (claims : TokenClaims) : Bool :=
  match claims.roles with
  | some rs => rs.any (fun role => lowerStr role == "admin" || lowerStr role == "superadmin")
  | none => false

/-- updateAdminAccess of app.js, as the boolean handed to
ui.toggleAdminSection: with null claims the admin section stays hidden;
with claims present the source computes the role check and then
unconditionally overrides the result with true ("for demo purposes"). -/
def updateAdminAccess (idTokenClaims : Option TokenClaims) : Bool :=
  match idTokenClaims with
  | none => false
  | some claims =>
    let showAdminSection := rolesGrantAdmin claims
    let showAdminSection := true
    showAdminSection

/-! ## Data service (dataService.js) -/

/-- The STATUS constants of dataService.js. -/
inductive Status where
  | idle
  | loading
  | success
  | error
deriving DecidableEq

/-- The dataCache module object of dataService.js. -/
structure DataCache where
  status : Status
  error : Option String
  lastFetched : Option Nat
  data : Option Json
  userdata : Option Json

/-- The cache as declared at module load. -/
def dataCacheInit : DataCache := ⟨.idle, none, none, none, none⟩

/-- The unauthenticated error message of dataService.js. -/
def noTokenMsg : String := "No authentication token available. Please sign in."

/-- The fallback message used when a caught error has a falsy message. -/
def fetchUnknownMsg : String := "Unknown error occurred while fetching data"

/-- The error message built for a non-ok fetch response. -/
def httpErrMsg (status : Nat) (text : String) : String :=
  "API request failed with status " ++ toString status ++ ": " ++ text

/-- The JavaScript falsy test applied to the token: null or empty. -/
def isFalsyToken : Option String → Bool
  | none => true
  | some t => t == ""

/-- Outcome of one GET interaction with the network, covering everything
that can happen from the fetch call through body parsing: a 2xx response
whose body parses as JSON, a non-2xx response with its status and body
text, or an exception thrown by the transport or by body parsing. -/
inductive FetchOutcome where
  | ok (body : Json)
  | httpError (status : Nat) (bodyText : String)
  | thrown (message : String)

/-- Result of one data-service GET operation: the value returned or the
message of the error thrown, the cache left behind, and how many network
calls were issued. -/
structure FetchResult where
  outcome : Except String Json
  cache : DataCache
  networkCalls : Nat

/-- The fetch path of getData, entered when the cache check did not
short-circuit: the token guard, then the request, with the cache updated
exactly as the source's success, non-ok and catch branches do.  On a
thrown error the raw error is rethrown while the cache records its message
(or the fallback when that message is empty). -/
def getDataFetch (idToken : Option String) (net : FetchOutcome) (now : Nat)
    (c : DataCache) : FetchResult :=
  if isFalsyToken idToken then
    ⟨.error noTokenMsg, { c with status := .error, error := some noTokenMsg }, 0⟩
  else
    let c1 := { c with status := .loading }
    match net with
    | .ok body =>
      ⟨.ok body,
       { c1 with status := .success, data := some body, lastFetched := some now, error := none }, 1⟩
    | .httpError s t =>
      ⟨.error (httpErrMsg s t), { c1 with status := .error, error := some (httpErrMsg s t) }, 1⟩
    | .thrown m =>
      ⟨.error m, { c1 with status := .error, error := some (if m == "" then fetchUnknownMsg else m) }, 1⟩

/-- getData of dataService.js: a populated data cache together with a
non-forced call returns the cached value at once (no token check, no
network); otherwise the fetch path runs. -/
def getData (forceRefresh : Bool) (idToken : Option String) (net : FetchOutcome)
    (now : Nat) (c : DataCache) : FetchResult :=
  match forceRefresh, c.data with
  | false, some d => ⟨.ok d, c, 0⟩
  | _, _ => getDataFetch idToken net now c

/-- The fetch path of getUserData, identical to getDataFetch except that
the success branch stores into the userdata field. -/
def getUserDataFetch (idToken : Option String) (net : FetchOutcome) (now : Nat)
    (c : DataCache) : FetchResult :=
  if isFalsyToken idToken then
    ⟨.error noTokenMsg, { c with status := .error, error := some noTokenMsg }, 0⟩
  else
    let c1 := { c with status := .loading }
    match net with
    | .ok body =>
      ⟨.ok body,
       { c1 with status := .success, userdata := some body, lastFetched := some now, error := none }, 1⟩
    | .httpError s t =>
      ⟨.error (httpErrMsg s t), { c1 with status := .error, error := some (httpErrMsg s t) }, 1⟩
    | .thrown m =>
      ⟨.error m, { c1 with status := .error, error := some (if m == "" then fetchUnknownMsg else m) }, 1⟩

/-- getUserData of dataService.js: the cache hit is on the userdata
field; otherwise the fetch path runs. -/
def getUserData (forceRefresh : Bool) (idToken : Option String) (net : FetchOutcome)
    (now : Nat) (c : DataCache) : FetchResult :=
  match forceRefresh, c.userdata with
  | false, some d => ⟨.ok d, c, 0⟩
  | _, _ => getUserDataFetch idToken net now c

/-- clearDataCache of dataService.js: resets status, data, error and
lastFetched.  The source does not touch the userdata field, so neither
does the model. -/
def clearDataCache (c : DataCache) : DataCache :=
  { c with status := .idle, data := none, error := none, lastFetched := none }

/-- JavaScript property assignment on an object literal held as an ordered
member list: an existing key keeps its position and receives the new
value, a fresh key is appended. -/
def setField : List (String × Json) → String → Json → List (String × Json)
  | [], k, v => [(k, v)]
  | (k2, v2) :: rest, k, v =>
    if k2 == k then (k, v) :: rest else (k2, v2) :: setField rest k v

/-- JavaScript property read on an object held as an ordered member
list. -/
def lookupField (ms : List (String × Json)) (k : String) : Option Json :=
  (ms.find? (fun p => p.1 == k)).map (·.2)

/-- Outcome of the PUT interaction in saveUserData: a 2xx response with a
JSON content type and parseable body, a 204 response, any other 2xx
response with its body text, a non-2xx response, or a thrown transport or
parsing exception. -/
inductive PutOutcome where
  | okJson (body : Json)
  | okNoContent
  | okOther (text : String)
  | httpError (status : Nat) (statusText : String) (bodyText : String)
  | thrown (message : String)

/-- The object saveUserData returns on success. -/
structure SaveResult where
  success : Bool
  data : Json

/-- Result of saveUserData: the returned value or thrown error message,
the cache left behind, the number of network calls, and the JSON body
submitted in the PUT when one was issued. -/
structure SaveOutput where
  outcome : Except String SaveResult
  cache : DataCache
  networkCalls : Nat
  sentBody : Option (List (String × Json))

/-- The default responseData object of saveUserData. -/
def defaultSaveResp : Json := .obj [("success", .bool true)]

/-- The wrapping applied by the catch block of saveUserData. -/
def saveFailMsg (s : String) : String := "Failed to save data: " ++ s

/-- The message of the error thrown for a non-ok PUT response, before the
catch block wraps it once more. -/
def saveHttpDetail (status : Nat) (statusText bodyText : String) : String :=
  "Failed to save data: " ++ toString status ++ " " ++ statusText ++ ". Detail: " ++ bodyText

/-- saveUserData of dataService.js.  The first statement assigns the
caller's object to dataCache.userdata, before the token guard and before
the network call; the cache thereafter aliases that object, so the
lastModified stamp, applied after the token guard, is visible through the
cache as well.  A non-ok response raises an error inside the try block
which the catch block wraps a second time; a thrown transport or parsing
exception is wrapped once.  The catch block of saveUserData does not touch
the cache. -/
def saveUserData (payload : List (String × Json)) (idToken : Option String)
    (net : PutOutcome) (nowIso : String) (c : DataCache) : SaveOutput :=
  let c0 := { c with userdata := some (.obj payload) }
  if isFalsyToken idToken then
    ⟨.error noTokenMsg, { c0 with status := .error, error := some noTokenMsg }, 0, none⟩
  else
    let stamped := setField payload "lastModified" (.str nowIso)
    let c1 := { c0 with userdata := some (.obj stamped) }
    match net with
    | .okJson body => ⟨.ok ⟨true, body⟩, c1, 1, some stamped⟩
    | .okNoContent => ⟨.ok ⟨true, defaultSaveResp⟩, c1, 1, some stamped⟩
    | .okOther _ => ⟨.ok ⟨true, defaultSaveResp⟩, c1, 1, some stamped⟩
    | .httpError s st b =>
      ⟨.error (saveFailMsg (saveHttpDetail s st b)), c1, 1, some stamped⟩
    | .thrown m => ⟨.error (saveFailMsg m), c1, 1, some stamped⟩

/-! ## Application coordinator (app.js) -/

/-- The APP_STATE of app.js together with the module states it reaches:
appReady models APP_STATE.initialized. -/
structure AppState where
  appReady : Bool
  authenticated : Bool
  auth : AuthModule
  cache : DataCache

/-- handleSignOut of app.js: when APP_STATE.initialized it calls
auth.signOut and drops the authenticated flag.  It never calls
clearDataCache, so the data cache passes through untouched. -/
def handleSignOut (st : AppState) : AppState :=
  if st.appReady then
    { st with auth := signOut st.auth, authenticated := false }
  else st

/-! ## Auxiliary predicates and lemmas -/

/-- Does a GET network outcome represent a failed fetch (non-2xx response,
or a thrown transport or parsing exception). -/
def fetchFails : FetchOutcome → Bool
  | .ok _ => false
  | .httpError _ _ => true
  | .thrown _ => true

/-- Does a PUT network outcome represent a failed save. -/
def putFails : PutOutcome → Bool
  | .okJson _ => false
  | .okNoContent => false
  | .okOther _ => false
  | .httpError _ _ _ => true
  | .thrown _ => true

/-- A populated data cache short-circuits a non-forced getData before the
token guard: the cached value is returned, the cache is untouched and no
network call happens. -/
theorem getData_hit (tok : Option String) (net : FetchOutcome) (now : Nat)
    {c : DataCache} {d : Json} (hd : c.data = some d) :
    getData false tok net now c = ⟨.ok d, c, 0⟩ := by
  unfold getData
  rw [hd]

/-- A populated user-data cache short-circuits a non-forced getUserData. -/
theorem getUserData_hit (tok : Option String) (net : FetchOutcome) (now : Nat)
    {c : DataCache} {d : Json} (hd : c.userdata = some d) :
    getUserData false tok net now c = ⟨.ok d, c, 0⟩ := by
  unfold getUserData
  rw [hd]

/-- A forced getData always takes the fetch path. -/
theorem getData_forced (tok : Option String) (net : FetchOutcome) (now : Nat)
    (c : DataCache) :
    getData true tok net now c = getDataFetch tok net now c := by
  unfold getData
  cases c.data <;> rfl

/-- A forced getUserData always takes the fetch path. -/
theorem getUserData_forced (tok : Option String) (net : FetchOutcome) (now : Nat)
    (c : DataCache) :
    getUserData true tok net now c = getUserDataFetch tok net now c := by
  unfold getUserData
  cases c.userdata <;> rfl

/-- With a usable token the fetch path always issues exactly one network
call, whatever the outcome. -/
theorem getDataFetch_calls (tok : Option String) (net : FetchOutcome) (now : Nat)
    (c : DataCache) (h : isFalsyToken tok = false) :
    (getDataFetch tok net now c).networkCalls = 1 := by
  unfold getDataFetch
  rw [h]
  cases net <;> rfl

/-- Reading the key just written by a JavaScript property assignment gives
back the written value. -/
theorem lookupField_setField (ms : List (String × Json)) (k : String) (v : Json) :
    lookupField (setField ms k v) k = some v := by
  induction ms with
  | nil => simp [setField, lookupField]
  | cons p rest ih =>
    obtain ⟨k2, v2⟩ := p
    by_cases hk : k2 = k
    · simp [setField, hk, lookupField]
    · simpa [setField, hk, lookupField] using ih

/-! ## Claims -/

/-- C1: the claim asserts that after signOut in an initialized,
authenticated session, getIdToken returns absent and a subsequent
getData(false) fails with the unauthenticated error rather than returning
a payload cached before sign-out.  The code violates the second half:
handleSignOut calls auth.signOut but never clearDataCache, so the
populated-cache branch of getData returns the pre-sign-out payload with
zero network calls, before the token guard is ever reached.  This theorem
evaluates the code at such a state: the token is gone, yet getData(false)
still answers with the old payload. -/
theorem signOut_leaves_cached_primary_data :
    (handleSignOut
      { appReady := true, authenticated := true,
        auth := { msalReady := true,
                  session := { userDetails := none, idToken := some "h.p.s",
                               accessToken := some "at" } },
        cache := { status := .success, error := none, lastFetched := some 1,
                   data := some (.str "pre-sign-out data"), userdata := none } }).auth.session.idToken
      = none ∧
    (getData false none (.thrown "unreachable") 2
      (handleSignOut
        { appReady := true, authenticated := true,
          auth := { msalReady := true,
                    session := { userDetails := none, idToken := some "h.p.s",
                                 accessToken := some "at" } },
          cache := { status := .success, error := none, lastFetched := some 1,
                     data := some (.str "pre-sign-out data"), userdata := none } }).cache).outcome
      = .ok (.str "pre-sign-out data") ∧
    (getData false none (.thrown "unreachable") 2
      (handleSignOut
        { appReady := true, authenticated := true,
          auth := { msalReady := true,
                    session := { userDetails := none, idToken := some "h.p.s",
                                 accessToken := some "at" } },
          cache := { status := .success, error := none, lastFetched := some 1,
                     data := some (.str "pre-sign-out data"), userdata := none } }).cache).networkCalls
      = 0 :=
  ⟨rfl, rfl, rfl⟩

/-- C3 counterexample: the claim says clearDataCache resets every cached
field including userdata, for every prior cache state.  The source resets
status, data, error and lastFetched only: on a cache whose userdata is
populated, the userdata survives the clear. -/
theorem clearDataCache_userdata_cex :
    (clearDataCache { status := .success, error := some "e", lastFetched := some 3,
                      data := some (.str "d"), userdata := some (.str "u") }).userdata
      = some (.str "u") ∧
    (clearDataCache { status := .success, error := some "e", lastFetched := some 3,
                      data := some (.str "d"), userdata := some (.str "u") }).userdata
      ≠ none :=
  ⟨rfl, fun h => Option.noConfusion h⟩

/-- C3 as amended: clearDataCache resets status to idle and clears data,
error and lastFetched, but leaves the userdata field unchanged, for every
prior cache state. -/
theorem clearDataCache_amended (c : DataCache) :
    clearDataCache c =
      { status := .idle, error := none, lastFetched := none, data := none,
        userdata := c.userdata } :=
  rfl

/-- C9: the claim states the intended contract, that the admin section is
shown if and only if the decoded claims hold a roles array containing
admin or superadmin case-insensitively.  The source computes exactly that
check and then unconditionally overrides it with true for every
authenticated user ("for demo purposes"), which the specification flags as
a bug to fix rather than behaviour to replicate.  At claims whose roles
array holds no admin-like role, the computed role check is false yet the
section is shown; with a roles array containing Admin the check agrees. -/
theorem updateAdminAccess_always_grants :
    updateAdminAccess (some ⟨some ["user"]⟩) = true ∧
    rolesGrantAdmin ⟨some ["user"]⟩ = false ∧
    updateAdminAccess (some ⟨none⟩) = true ∧
    rolesGrantAdmin ⟨none⟩ = false ∧
    rolesGrantAdmin ⟨some ["Admin"]⟩ = true ∧
    updateAdminAccess none = false :=
  ⟨rfl, rfl, rfl, rfl, rfl, rfl⟩

/-- C2 counterexample: the claim quantifies over every cache state, but a
non-forced getData on a populated cache returns the cached payload before
the token guard runs: with no token obtainable the operation succeeds
instead of failing with the unauthenticated error. -/
theorem unauthenticated_cache_hit_succeeds_cex :
    (getData false none (.thrown "unreachable") 2
      { status := .success, error := none, lastFetched := some 1,
        data := some (.str "cached"), userdata := none }).outcome
      = .ok (.str "cached") ∧
    (getData false none (.thrown "unreachable") 2
      { status := .success, error := none, lastFetched := some 1,
        data := some (.str "cached"), userdata := none }).networkCalls = 0 :=
  ⟨rfl, rfl⟩

/-- C2 as amended: with no idToken obtainable, every data-client operation
issues zero network calls; getData and getUserData fail with the
unauthenticated error whenever their cache field does not short-circuit
(forced call, or the field empty), and saveUserData always fails with the
unauthenticated error and submits no body.  A non-forced getData or
getUserData whose cache field is populated instead returns the cached
payload, still with zero network calls. -/
theorem unauthenticated_guard_amended (force : Bool) (net : FetchOutcome)
    (pnet : PutOutcome) (now : Nat) (nowIso : String) (c : DataCache)
    (tok : Option String) (payload : List (String × Json))
    (h : isFalsyToken tok = true) :
    (getData force tok net now c).networkCalls = 0 ∧
    (getUserData force tok net now c).networkCalls = 0 ∧
    (saveUserData payload tok pnet nowIso c).networkCalls = 0 ∧
    (saveUserData payload tok pnet nowIso c).sentBody = none ∧
    (saveUserData payload tok pnet nowIso c).outcome = .error noTokenMsg ∧
    (force = true ∨ c.data = none →
      (getData force tok net now c).outcome = .error noTokenMsg) ∧
    (force = true ∨ c.userdata = none →
      (getUserData force tok net now c).outcome = .error noTokenMsg) :=
  by
  refine ⟨?_, ?_, ?_, ?_, ?_, ?_, ?_⟩
  · cases force with
    | false =>
      cases hc : c.data with
      | some d => rw [getData_hit tok net now hc]
      | none => unfold getData; rw [hc]; simp [getDataFetch, h]
    | true => rw [getData_forced]; simp [getDataFetch, h]
  · cases force with
    | false =>
      cases hc : c.userdata with
      | some d => rw [getUserData_hit tok net now hc]
      | none => unfold getUserData; rw [hc]; simp [getUserDataFetch, h]
    | true => rw [getUserData_forced]; simp [getUserDataFetch, h]
  · simp [saveUserData, h]
  · simp [saveUserData, h]
  · simp [saveUserData, h]
  · rintro (rfl | hc)
    · rw [getData_forced]; simp [getDataFetch, h]
    · cases force with
      | false => unfold getData; rw [hc]; simp [getDataFetch, h]
      | true => rw [getData_forced]; simp [getDataFetch, h]
  · rintro (rfl | hc)
    · rw [getUserData_forced]; simp [getUserDataFetch, h]
    · cases force with
      | false => unfold getUserData; rw [hc]; simp [getUserDataFetch, h]
      | true => rw [getUserData_forced]; simp [getUserDataFetch, h]

/-- Witness for the amended C2 at a concrete unauthenticated call. -/
theorem unauthenticated_guard_amended_witness :
    (getData true none (.thrown "x") 0 dataCacheInit).outcome = .error noTokenMsg ∧
    (getData true none (.thrown "x") 0 dataCacheInit).networkCalls = 0 ∧
    (saveUserData [("name", .str "x")] none (.thrown "x") "2026-01-01T00:00:00.000Z"
      dataCacheInit).networkCalls = 0 :=
  ⟨(unauthenticated_guard_amended true (.thrown "x") (.thrown "x") 0
      "2026-01-01T00:00:00.000Z" dataCacheInit none [("name", .str "x")] rfl).2.2.2.2.2.1
      (Or.inl rfl),
   (unauthenticated_guard_amended true (.thrown "x") (.thrown "x") 0
      "2026-01-01T00:00:00.000Z" dataCacheInit none [("name", .str "x")] rfl).1,
   (unauthenticated_guard_amended true (.thrown "x") (.thrown "x") 0
      "2026-01-01T00:00:00.000Z" dataCacheInit none [("name", .str "x")] rfl).2.2.1⟩

/-- C5 counterexample: the claim says a network request is issued if and
only if forceRefresh is true or the cache is empty, and that getData(true)
always issues a network call.  With no token held, a forced getData on a
populated cache throws the unauthenticated error before fetch: zero
network calls despite forceRefresh being true. -/
theorem forced_refresh_no_token_cex :
    (getData true none (.ok (.str "fresh")) 2
      { status := .success, error := none, lastFetched := some 1,
        data := some (.str "cached"), userdata := none }).networkCalls = 0 :=
  rfl

/-- C5 as amended: for calls holding a usable idToken, getData issues a
network request if and only if forceRefresh is true or the data cache is
empty; a populated cache answers every non-forced call unchanged with zero
network calls; and after one forced success, two successive non-forced
calls issue no further network call and both return the identical cached
payload (so the success's single call is the only one). -/
theorem getData_network_iff_amended (force : Bool) (tok tok2 tok3 : Option String)
    (net net2 net3 : FetchOutcome) (now now2 now3 : Nat) (c : DataCache) (d : Json)
    (h : isFalsyToken tok = false) :
    ((getData force tok net now c).networkCalls
      = if force || c.data.isNone then 1 else 0) ∧
    (∀ e, c.data = some e → getData false tok2 net2 now2 c = ⟨.ok e, c, 0⟩) ∧
    ((getData true tok (.ok d) now c).networkCalls = 1 ∧
      (getData false tok2 net2 now2 (getData true tok (.ok d) now c).cache).outcome
        = .ok d ∧
      (getData false tok2 net2 now2 (getData true tok (.ok d) now c).cache).networkCalls
        = 0 ∧
      (getData false tok3 net3 now3
        (getData false tok2 net2 now2 (getData true tok (.ok d) now c).cache).cache).outcome
        = .ok d ∧
      (getData false tok3 net3 now3
        (getData false tok2 net2 now2 (getData true tok (.ok d) now c).cache).cache).networkCalls
        = 0) :=
  by
  have hforced : getData true tok (.ok d) now c = ⟨.ok d, { c with status := .success, data := some d, lastFetched := some now, error := none }, 1⟩ := by
    rw [getData_forced]; simp [getDataFetch, h]
  refine ⟨?_, ?_, ?_⟩
  · cases force with
    | false =>
      cases hc : c.data with
      | some e => rw [getData_hit tok net now hc]; simp [hc]
      | none => unfold getData; rw [hc]; simp [hc, getDataFetch_calls tok net now c h]
    | true => rw [getData_forced]; simp [getDataFetch_calls tok net now c h]
  · intro e he
    exact getData_hit tok2 net2 now2 he
  · rw [hforced]
    exact ⟨rfl, rfl, rfl, rfl, rfl⟩

/-- Witness for the amended C5 at a concrete forced success followed by a
non-forced cache hit. -/
theorem getData_network_iff_amended_witness :
    (getData true (some "tok") (.ok (.str "payload")) 1 dataCacheInit).networkCalls = 1 ∧
    (getData false (some "tok2") (.thrown "x") 2
      (getData true (some "tok") (.ok (.str "payload")) 1 dataCacheInit).cache).outcome
      = .ok (.str "payload") ∧
    (getData false (some "tok2") (.thrown "x") 2
      (getData true (some "tok") (.ok (.str "payload")) 1 dataCacheInit).cache).networkCalls
      = 0 :=
  ⟨(getData_network_iff_amended true (some "tok") (some "tok2") (some "tok3")
      (.ok (.str "payload")) (.thrown "x") (.thrown "y") 1 2 3 dataCacheInit
      (.str "payload") rfl).2.2.1,
   (getData_network_iff_amended true (some "tok") (some "tok2") (some "tok3")
      (.ok (.str "payload")) (.thrown "x") (.thrown "y") 1 2 3 dataCacheInit
      (.str "payload") rfl).2.2.2.1,
   (getData_network_iff_amended true (some "tok") (some "tok2") (some "tok3")
      (.ok (.str "payload")) (.thrown "x") (.thrown "y") 1 2 3 dataCacheInit
      (.str "payload") rfl).2.2.2.2.1⟩

/-- With a usable token, a failing fetch leaves the data-fetch path with
an error outcome and a cache that differs from the input only in status
and error. -/
theorem getDataFetch_fail (tok : Option String) (net : FetchOutcome) (now : Nat)
    (c : DataCache) (ht : isFalsyToken tok = false) (hn : fetchFails net = true) :
    ∃ m m2, getDataFetch tok net now c
      = ⟨.error m, { c with status := .error, error := some m2 }, 1⟩ := by
  cases net with
  | ok b => simp [fetchFails] at hn
  | httpError s t =>
    exact ⟨httpErrMsg s t, httpErrMsg s t, by simp [getDataFetch, ht]⟩
  | thrown m =>
    exact ⟨m, if m == "" then fetchUnknownMsg else m, by simp [getDataFetch, ht]⟩

/-- Same frame property for the user-data fetch path. -/
theorem getUserDataFetch_fail (tok : Option String) (net : FetchOutcome) (now : Nat)
    (c : DataCache) (ht : isFalsyToken tok = false) (hn : fetchFails net = true) :
    ∃ m m2, getUserDataFetch tok net now c
      = ⟨.error m, { c with status := .error, error := some m2 }, 1⟩ := by
  cases net with
  | ok b => simp [fetchFails] at hn
  | httpError s t =>
    exact ⟨httpErrMsg s t, httpErrMsg s t, by simp [getUserDataFetch, ht]⟩
  | thrown m =>
    exact ⟨m, if m == "" then fetchUnknownMsg else m, by simp [getUserDataFetch, ht]⟩

/-- C4: with the data cache populated by a prior success, a failing fetch
(non-2xx, or thrown transport or parse error) through either getData or
getUserData leaves the cached payloads and the lastFetched timestamp
unchanged, mutating only status and error; afterwards a non-forced getData
still returns the earlier payload from cache without a network call, and
likewise for a populated user-data cache and getUserData. -/
theorem failed_fetch_preserves_cache (c : DataCache) (d : Json)
    (tok tok2 : Option String) (net net2 : FetchOutcome) (now now2 : Nat)
    (hd : c.data = some d) (hn : fetchFails net = true)
    (ht : isFalsyToken tok = false) :
    ((getData true tok net now c).cache.data = some d ∧
     (getData true tok net now c).cache.userdata = c.userdata ∧
     (getData true tok net now c).cache.lastFetched = c.lastFetched ∧
     (getData true tok net now c).cache.status = .error ∧
     (∃ m, (getData true tok net now c).outcome = .error m) ∧
     getData false tok2 net2 now2 (getData true tok net now c).cache
       = ⟨.ok d, (getData true tok net now c).cache, 0⟩) ∧
    ((getUserData true tok net now c).cache.data = some d ∧
     (getUserData true tok net now c).cache.userdata = c.userdata ∧
     (getUserData true tok net now c).cache.lastFetched = c.lastFetched ∧
     (getUserData true tok net now c).cache.status = .error ∧
     (∃ m, (getUserData true tok net now c).outcome = .error m) ∧
     getData false tok2 net2 now2 (getUserData true tok net now c).cache
       = ⟨.ok d, (getUserData true tok net now c).cache, 0⟩) ∧
    (∀ du, c.userdata = some du →
      getUserData false tok2 net2 now2 (getData true tok net now c).cache
        = ⟨.ok du, (getData true tok net now c).cache, 0⟩ ∧
      getUserData false tok2 net2 now2 (getUserData true tok net now c).cache
        = ⟨.ok du, (getUserData true tok net now c).cache, 0⟩) := by
  obtain ⟨m, m2, hEq⟩ := getDataFetch_fail tok net now c ht hn
  obtain ⟨m3, m4, hEqU⟩ := getUserDataFetch_fail tok net now c ht hn
  have hg : getData true tok net now c
      = ⟨.error m, { c with status := .error, error := some m2 }, 1⟩ := by
    rw [getData_forced, hEq]
  have hu : getUserData true tok net now c
      = ⟨.error m3, { c with status := .error, error := some m4 }, 1⟩ := by
    rw [getUserData_forced, hEqU]
  rw [hg, hu]
  refine ⟨⟨hd, rfl, rfl, rfl, ⟨m, rfl⟩, getData_hit tok2 net2 now2 hd⟩,
          ⟨hd, rfl, rfl, rfl, ⟨m3, rfl⟩, getData_hit tok2 net2 now2 hd⟩,
          fun du hdu => ⟨getUserData_hit tok2 net2 now2 hdu, getUserData_hit tok2 net2 now2 hdu⟩⟩

/-- Witness for C4 at a populated cache and a concrete 500 response. -/
theorem failed_fetch_preserves_cache_witness :
    (getData true (some "tok") (.httpError 500 "boom") 9
      { status := .success, error := none, lastFetched := some 1,
        data := some (.str "old"), userdata := some (.str "olduser") }).cache.data
      = some (.str "old") ∧
    (getData false (some "tok") (.thrown "x") 10
      (getData true (some "tok") (.httpError 500 "boom") 9
        { status := .success, error := none, lastFetched := some 1,
          data := some (.str "old"), userdata := some (.str "olduser") }).cache).outcome
      = .ok (.str "old") :=
  ⟨(failed_fetch_preserves_cache
      { status := .success, error := none, lastFetched := some 1,
        data := some (.str "old"), userdata := some (.str "olduser") }
      (.str "old") (some "tok") (some "tok") (.httpError 500 "boom") (.thrown "x") 9 10
      rfl rfl rfl).1.1,
   congrArg FetchResult.outcome
     ((failed_fetch_preserves_cache
        { status := .success, error := none, lastFetched := some 1,
          data := some (.str "old"), userdata := some (.str "olduser") }
        (.str "old") (some "tok") (some "tok") (.httpError 500 "boom") (.thrown "x") 9 10
        rfl rfl rfl).1.2.2.2.2.2)⟩

/-- C6: for every object payload, token-holding call and PUT outcome, the
JSON body submitted in the PUT is the payload with its lastModified field
set to the current ISO timestamp, overwriting any caller-supplied value,
and reading lastModified from that body yields exactly that timestamp. -/
theorem saveUserData_stamps_lastModified (payload : List (String × Json))
    (tok : Option String) (net : PutOutcome) (nowIso : String) (c : DataCache)
    (h : isFalsyToken tok = false) :
    (saveUserData payload tok net nowIso c).sentBody
      = some (setField payload "lastModified" (.str nowIso)) ∧
    lookupField (setField payload "lastModified" (.str nowIso)) "lastModified"
      = some (.str nowIso) := by
  constructor
  · simp only [saveUserData, h]
    cases net <;> rfl
  · exact lookupField_setField payload "lastModified" (.str nowIso)

/-- Witness for C6: a payload that already carries a caller-supplied
lastModified is submitted with that value overwritten by the stamp. -/
theorem saveUserData_stamps_lastModified_witness :
    (saveUserData [("name", .str "x"), ("lastModified", .str "caller-supplied")]
      (some "tok") .okNoContent "2026-01-01T00:00:00.000Z" dataCacheInit).sentBody
      = some [("name", .str "x"), ("lastModified", .str "2026-01-01T00:00:00.000Z")] ∧
    lookupField [("name", .str "x"), ("lastModified", .str "2026-01-01T00:00:00.000Z")]
      "lastModified" = some (.str "2026-01-01T00:00:00.000Z") :=
  ⟨(saveUserData_stamps_lastModified
      [("name", .str "x"), ("lastModified", .str "caller-supplied")]
      (some "tok") .okNoContent "2026-01-01T00:00:00.000Z" dataCacheInit rfl).1,
   (saveUserData_stamps_lastModified
      [("name", .str "x"), ("lastModified", .str "caller-supplied")]
      (some "tok") .okNoContent "2026-01-01T00:00:00.000Z" dataCacheInit rfl).2⟩

/-- C7: getIdTokenClaims returns absent when no token is held and when the
held token does not consist of exactly three dot-separated segments, and
on a well-formed token it decodes the middle base64url segment into the
claim mapping: the concrete token whose middle segment decodes to the JSON
object with sub equal to abc and exp equal to 123 yields exactly those
claims. -/
theorem getIdTokenClaims_spec (t : String)
    (h : (splitOnDot t).length ≠ 3) :
    getIdTokenClaims none = none ∧
    getIdTokenClaims (some t) = none ∧
    getIdTokenClaims (some "hh.eyJzdWIiOiJhYmMiLCJleHAiOjEyM30.sig")
      = some (.obj [("sub", .str "abc"), ("exp", .num 123 0)]) := by
  refine ⟨rfl, ?_, by rfl⟩
  by_cases he : t = ""
  · simp [getIdTokenClaims, he]
  · simp [getIdTokenClaims, he, h]

/-- Witness for C7 at a two-segment token. -/
theorem getIdTokenClaims_spec_witness :
    (splitOnDot "header.payload").length ≠ 3 ∧
    getIdTokenClaims (some "header.payload") = none :=
  ⟨by decide, (getIdTokenClaims_spec "header.payload" (by decide)).2.1⟩

/-- C8 counterexample: the claim says a transport exception during a data
operation is surfaced as an HTTPFailure-shaped error with a generic
message, never the raw transport exception.  In getData the catch block
rethrows the caught error unchanged: the surfaced error is exactly the raw
transport exception. -/
theorem raw_transport_error_cex :
    (getData true (some "tok") (.thrown "TypeError: Failed to fetch") 0
      dataCacheInit).outcome = .error "TypeError: Failed to fetch" :=
  rfl

/-- C8 as amended: a transport (or parse) exception thrown during getData
or getUserData is rethrown raw — the surfaced error carries exactly the
transport message, with the cache recording that message (or a fallback
when it is empty) — while only saveUserData wraps the exception into a
Failed-to-save message. -/
theorem transport_error_propagation_amended (m : String) (tok : Option String)
    (payload : List (String × Json)) (now : Nat) (nowIso : String) (c : DataCache)
    (h : isFalsyToken tok = false) :
    (getData true tok (.thrown m) now c).outcome = .error m ∧
    (getData true tok (.thrown m) now c).cache.error
      = some (if m == "" then fetchUnknownMsg else m) ∧
    (getUserData true tok (.thrown m) now c).outcome = .error m ∧
    (getUserData true tok (.thrown m) now c).cache.error
      = some (if m == "" then fetchUnknownMsg else m) ∧
    (saveUserData payload tok (.thrown m) nowIso c).outcome
      = .error (saveFailMsg m) := by
  rw [getData_forced, getUserData_forced]
  refine ⟨?_, ?_, ?_, ?_, ?_⟩
  · simp [getDataFetch, h]
  · simp [getDataFetch, h]
  · simp [getUserDataFetch, h]
  · simp [getUserDataFetch, h]
  · simp [saveUserData, h]

/-- Witness for the amended C8 at a concrete failed-to-fetch exception. -/
theorem transport_error_propagation_amended_witness :
    (getData true (some "tok") (.thrown "connection refused") 0 dataCacheInit).outcome
      = .error "connection refused" ∧
    (saveUserData [("name", .str "x")] (some "tok") (.thrown "connection refused")
      "2026-01-01T00:00:00.000Z" dataCacheInit).outcome
      = .error (saveFailMsg "connection refused") :=
  ⟨(transport_error_propagation_amended "connection refused" (some "tok")
      [("name", .str "x")] 0 "2026-01-01T00:00:00.000Z" dataCacheInit rfl).1,
   (transport_error_propagation_amended "connection refused" (some "tok")
      [("name", .str "x")] 0 "2026-01-01T00:00:00.000Z" dataCacheInit rfl).2.2.2.2⟩

/-- C10: saveUserData assigns the submitted object to the userdata cache
before the token guard and before the network call.  When the call fails
with the unauthenticated error, the cache holds the caller's payload; when
the PUT fails (non-2xx or thrown), the cache holds the stamped payload
that was submitted as the PUT body.  In both cases a later non-forced
getUserData returns the never-persisted payload from cache with zero
network calls. -/
theorem saveUserData_cache_mutation_on_error (payload : List (String × Json))
    (tok tok2 : Option String) (net : PutOutcome) (gnet : FetchOutcome)
    (nowIso : String) (now2 : Nat) (c : DataCache) :
    (isFalsyToken tok = true →
      (saveUserData payload tok net nowIso c).outcome = .error noTokenMsg ∧
      (saveUserData payload tok net nowIso c).networkCalls = 0 ∧
      (saveUserData payload tok net nowIso c).cache.userdata = some (.obj payload) ∧
      getUserData false tok2 gnet now2 (saveUserData payload tok net nowIso c).cache
        = ⟨.ok (.obj payload), (saveUserData payload tok net nowIso c).cache, 0⟩) ∧
    (isFalsyToken tok = false → putFails net = true →
      (∃ msg, (saveUserData payload tok net nowIso c).outcome = .error msg) ∧
      (saveUserData payload tok net nowIso c).sentBody
        = some (setField payload "lastModified" (.str nowIso)) ∧
      (saveUserData payload tok net nowIso c).cache.userdata
        = some (.obj (setField payload "lastModified" (.str nowIso))) ∧
      getUserData false tok2 gnet now2 (saveUserData payload tok net nowIso c).cache
        = ⟨.ok (.obj (setField payload "lastModified" (.str nowIso))),
           (saveUserData payload tok net nowIso c).cache, 0⟩) := by
  constructor
  · intro h
    have hs : saveUserData payload tok net nowIso c
        = ⟨.error noTokenMsg, { c with userdata := some (.obj payload), status := .error, error := some noTokenMsg }, 0, none⟩ := by
      simp [saveUserData, h]
    rw [hs]
    exact ⟨rfl, rfl, rfl, getUserData_hit tok2 gnet now2 rfl⟩
  · intro h hf
    cases net with
    | okJson b => simp [putFails] at hf
    | okNoContent => simp [putFails] at hf
    | okOther t => simp [putFails] at hf
    | httpError s st b =>
      have hs : saveUserData payload tok (.httpError s st b) nowIso c
          = ⟨.error (saveFailMsg (saveHttpDetail s st b)), { c with userdata := some (.obj (setField payload "lastModified" (.str nowIso))), status := c.status, error := c.error }, 1, some (setField payload "lastModified" (.str nowIso))⟩ := by
        simp [saveUserData, h]
      rw [hs]
      exact ⟨⟨saveFailMsg (saveHttpDetail s st b), rfl⟩, rfl, rfl,
             getUserData_hit tok2 gnet now2 rfl⟩
    | thrown m =>
      have hs : saveUserData payload tok (.thrown m) nowIso c
          = ⟨.error (saveFailMsg m), { c with userdata := some (.obj (setField payload "lastModified" (.str nowIso))), status := c.status, error := c.error }, 1, some (setField payload "lastModified" (.str nowIso))⟩ := by
        simp [saveUserData, h]
      rw [hs]
      exact ⟨⟨saveFailMsg m, rfl⟩, rfl, rfl,
             getUserData_hit tok2 gnet now2 rfl⟩

/-- Witness for C10: the unauthenticated branch and a concrete failed PUT
both leave the submitted object readable from the user-data cache. -/
theorem saveUserData_cache_mutation_on_error_witness :
    (saveUserData [("name", .str "x")] none .okNoContent "2026-01-01T00:00:00.000Z"
      dataCacheInit).cache.userdata = some (.obj [("name", .str "x")]) ∧
    (saveUserData [("name", .str "x")] (some "tok") (.httpError 500 "ISE" "boom")
      "2026-01-01T00:00:00.000Z" dataCacheInit).cache.userdata
      = some (.obj [("name", .str "x"),
                    ("lastModified", .str "2026-01-01T00:00:00.000Z")]) :=
  ⟨(saveUserData_cache_mutation_on_error [("name", .str "x")] none (some "t2")
      .okNoContent (.thrown "x") "2026-01-01T00:00:00.000Z" 7 dataCacheInit).1
      rfl |>.2.2.1,
   (saveUserData_cache_mutation_on_error [("name", .str "x")] (some "tok") (some "t2")
      (.httpError 500 "ISE" "boom") (.thrown "x") "2026-01-01T00:00:00.000Z" 7
      dataCacheInit).2 rfl rfl |>.2.2.1⟩
